import Mathlib

/-!
Shallow embedding of the Vision-V client/server fragments under verification:

* the WebView `Page` controller (`src/core/client/startup.ts`): `open` and
  `close` are modelled as pure functions from a page descriptor and a host
  snapshot to an explicit trace of host-runtime side-effect calls, with
  null/undefined dereferences surfaced as an `Except` error;
* the default weather rotation system
  (`src/core/server/systems/defaults/weather.ts`): modelled as a state
  machine over the weather list and the enabled flag;
* the vehicle door toggle helper: modelled over a door-state assignment.

Optional TypeScript fields are modelled as `Option`; JavaScript truthiness
of an optional boolean is `Option.getD false`, and the `=== false` checks
of the source are modelled as equality with `some false`.
-/

/-- Truthiness of an optional boolean field: `undefined` is falsy. -/
def optB (o : Option Bool) : Bool := o.getD false

/-- One host-runtime side-effect call issued by the Page controller. -/
inductive Effect where
  | webviewFocus : Effect
  | webviewUnfocus : Effect
  | webviewShowOverlays (value : Bool) (secondArg : Option Bool) : Effect
  | webviewShowCursor (value : Bool) : Effect
  | toggleGameControls (value : Bool) : Effect
  | gameplayCameraDisable : Effect
  | gameplayCameraEnable : Effect
  | pauseMenuDisable : Effect
  | pauseMenuEnable : Effect
  | displayRadar (value : Bool) : Effect
  | displayHud (value : Bool) : Effect
  | screenblurFadeIn (ms : Nat) : Effect
  | screenblurFadeOut (ms : Nat) : Effect
  | setIsMenuOpen (value : Bool) : Effect
  | webviewOpen (names : List String) (hideOverlays : Bool) : Effect
  | webviewClose (names : List String) (showOverlays : Bool) : Effect
  | onCloseCallback : Effect
deriving DecidableEq

/-- A JavaScript null/undefined property-access fault (TypeError). -/
inductive Fault where
  | nullAccess : Fault
deriving DecidableEq

/-- The `options.onOpen` flag set of a page descriptor. -/
structure OnOpenOptions where
  focus : Option Bool
  showCursor : Option Bool
  hideHud : Option Bool
  hideOverlays : Option Bool
  disableControls : Option String
  disablePauseMenu : Option Bool
  blurBackground : Option Bool
  setIsMenuOpenToTrue : Option Bool
deriving DecidableEq

/-- The `options.onClose` flag set of a page descriptor. -/
structure OnCloseOptions where
  unfocus : Option Bool
  hideCursor : Option Bool
  showHud : Option Bool
  showOverlays : Option Bool
  enableControls : Option Bool
  enablePauseMenu : Option Bool
  unblurBackground : Option Bool
  setIsMenuOpenToFalse : Option Bool
deriving DecidableEq

/-- The `options` object of a page descriptor. -/
structure PageOptions where
  disableEscapeKey : Option Bool
  onOpen : Option OnOpenOptions
  onClose : Option OnCloseOptions
deriving DecidableEq

/-- The `keybind` object of a page descriptor (only the field the
open/close logic reads). -/
structure PageKeybind where
  useSameKeyToClose : Option Bool
deriving DecidableEq

/-- An `IPage` descriptor (the fields the open/close logic reads). -/
structure IPage where
  name : String
  options : Option PageOptions
  keybind : Option PageKeybind
deriving DecidableEq

/-- Snapshot of the host-runtime predicates `open()` consults. -/
structure HostState where
  isAnyMenuOpen : Bool
  isConsoleOpen : Bool
  isMenuOpen : Bool
  isPageOpen : Bool
deriving DecidableEq

/-- A list emitted only when its guard is true (an `if` around a call). -/
def condList (c : Bool) (l : List Effect) : List Effect := if c then l else []

/-- Truthiness of `this.info.keybind && this.info.keybind.useSameKeyToClose`. -/
def useSameKeyToClose (p : IPage) : Bool :=
  match p.keybind with
  | some k => optB k.useSameKeyToClose
  | none => false

/-- The computed `hideOverlays` of `open()`:
`this.info.options.onOpen.hideOverlays === false ? false : true`. -/
def hideOverlaysOf (oo : OnOpenOptions) : Bool :=
  if oo.hideOverlays = some false then false else true

/-- The computed `showOverlays` of `close()`:
`this.info.options.onClose.showOverlays === false ? false : true`. -/
def showOverlaysOf (oc : OnCloseOptions) : Bool :=
  if oc.showOverlays = some false then false else true

/-- The effect trace of the non-aborting path of `open()`, in source order:
focus, overlay hide (hideHud), cursor, control-disable switch, pause-menu
disable, radar/HUD hide (hideHud), blur fade-in, menu-open flag, and
finally the `webview.open` display call carrying the computed
`hideOverlays` flag (its auto-close handler is `close.bind(this)`,
represented by the trace constructor itself). -/
def openEffects (name : String) (oo : OnOpenOptions) : List Effect :=
  (condList (optB oo.focus) [Effect.webviewFocus] ++
   condList (optB oo.hideHud) [Effect.webviewShowOverlays false none] ++
   condList (optB oo.showCursor) [Effect.webviewShowCursor true] ++
   (match oo.disableControls with
    | some s =>
      if s = "all" then [Effect.toggleGameControls false]
      else if s = "camera" then [Effect.gameplayCameraDisable]
      else []
    | none => []) ++
   condList (optB oo.disablePauseMenu) [Effect.pauseMenuDisable] ++
   condList (optB oo.hideHud) [Effect.displayRadar false, Effect.displayHud false] ++
   condList (optB oo.blurBackground) [Effect.screenblurFadeIn 250] ++
   condList (optB oo.setIsMenuOpenToTrue) [Effect.setIsMenuOpen true]) ++
  [Effect.webviewOpen [name] (hideOverlaysOf oo)]

/-- The effect trace of `close(isManuallyTriggered)`, in source order:
the `webview.close` call (manual trigger only), the direct
`showOverlays(true, false)` call (automatic trigger with overlays on),
then the unconditionally-checked flag-gated restorations, and finally the
descriptor's `onClose` callback. -/
def closeEffects (name : String) (oc : OnCloseOptions) (isManuallyTriggered : Bool) :
    List Effect :=
  (condList isManuallyTriggered [Effect.webviewClose [name] (showOverlaysOf oc)] ++
   condList (!isManuallyTriggered && showOverlaysOf oc)
     [Effect.webviewShowOverlays true (some false)] ++
   condList (optB oc.hideCursor) [Effect.webviewShowCursor false] ++
   condList (optB oc.unfocus) [Effect.webviewUnfocus] ++
   condList (optB oc.unblurBackground) [Effect.screenblurFadeOut 250] ++
   condList (optB oc.setIsMenuOpenToFalse) [Effect.setIsMenuOpen false] ++
   condList (optB oc.showHud) [Effect.displayRadar true, Effect.displayHud true] ++
   condList (optB oc.enablePauseMenu) [Effect.pauseMenuEnable] ++
   condList (optB oc.enableControls)
     [Effect.toggleGameControls true, Effect.gameplayCameraEnable]) ++
  [Effect.onCloseCallback]

/-- `Page.close(isManuallyTriggered)`: dereferences
`this.info.options.onClose` (faulting when either layer is missing) and
emits the close trace. -/
def Page.close (p : IPage) (isManuallyTriggered : Bool) : Except Fault (List Effect) :=
  match p.options with
  | none => Except.error Fault.nullAccess
  | some opts =>
    match opts.onClose with
    | none => Except.error Fault.nullAccess
    | some oc => Except.ok (closeEffects p.name oc isManuallyTriggered)

/-- `Page.open()`: the `useSameKeyToClose` toggle redirect, the three
blocking checks (each returning `false` with no effects), then the
`options.onOpen` dereference and the open trace, returning `true`. -/
def Page.open (p : IPage) (env : HostState) : Except Fault (Bool × List Effect) :=
  if useSameKeyToClose p && env.isPageOpen then
    Except.map (fun tr => (false, tr)) (Page.close p true)
  else if env.isAnyMenuOpen then Except.ok (false, [])
  else if env.isConsoleOpen then Except.ok (false, [])
  else if env.isMenuOpen then Except.ok (false, [])
  else
    match p.options with
    | none => Except.error Fault.nullAccess
    | some opts =>
      match opts.onOpen with
      | none => Except.error Fault.nullAccess
      | some oo => Except.ok (true, openEffects p.name oo)

/-- The `options.onOpen` object reached by `open()`'s dereference chain. -/
def onOpenOf (p : IPage) : Option OnOpenOptions :=
  match p.options with
  | none => none
  | some opts => opts.onOpen

/-- Trace predicate: is this effect the `onClose` descriptor callback? -/
def Effect.isOnCloseCallback : Effect → Bool
  | Effect.onCloseCallback => true
  | _ => false

/-- Trace predicate: is this effect a `webview.close` (hide-surface) call? -/
def Effect.isWebviewClose : Effect → Bool
  | Effect.webviewClose _ _ => true
  | _ => false

/-- Trace predicate: is this effect a direct `webview.showOverlays` call? -/
def Effect.isShowOverlaysCall : Effect → Bool
  | Effect.webviewShowOverlays _ _ => true
  | _ => false

/-!
Weather rotation system (`src/core/server/systems/defaults/weather.ts`).
-/

/-- The module-level `weathers` array, in source order. -/
def weathersInit : List String :=
  ["ExtraSunny", "ExtraSunny", "Clear", "Clouds", "Overcast", "Rain",
   "Thunder", "Rain", "Foggy", "Overcast", "Clearing"]

/-- A connected player, reduced to the two flags the filter reads. -/
structure WPlayer where
  valid : Bool
  hasFullySpawned : Bool
deriving DecidableEq

/-- The module-level mutable state: the `weathers` array and `enabled`. -/
structure WeatherState where
  weathers : List String
  enabled : Bool
deriving DecidableEq

/-- Initial module state: the literal array, with the system enabled. -/
def weatherStateInit : WeatherState := ⟨weathersInit, true⟩

/-- `weathers.push(weathers.shift())` on a nonempty array: rotate left. -/
def rotateLeft : List String → List String
  | [] => []
  | x :: xs => xs ++ [x]

/-- `handleWeatherUpdate`: skip when disabled or when no valid, fully
spawned player is connected; otherwise rotate the weather array left. -/
def handleWeatherUpdate (players : List WPlayer) (s : WeatherState) : WeatherState :=
  if s.enabled = false then s
  else
    let loggedInPlayers := players.filter fun x => x.valid && x.hasFullySpawned
    if loggedInPlayers.length ≤ 0 then s
    else ⟨rotateLeft s.weathers, s.enabled⟩

/-- An event touching the weather module state: one interval tick (with
the players connected at that instant) or `DefaultWeatherSystem.disable`. -/
inductive WAction where
  | update (players : List WPlayer) : WAction
  | disable : WAction

/-- One step of the weather module's state. -/
def weatherStep (a : WAction) (s : WeatherState) : WeatherState :=
  match a with
  | WAction.update ps => handleWeatherUpdate ps s
  | WAction.disable => ⟨s.weathers, false⟩

/-- The state reached from the initial state after a sequence of events. -/
def weatherRun (acts : List WAction) : WeatherState :=
  acts.foldl (fun s a => weatherStep a s) weatherStateInit

/-- `DefaultWeatherSystem.getCurrentWeather(asString)`: `weathers[0]` as a
string, or its numeric form through `getWeatherFromString` (an external
utility, taken as a parameter `g`). -/
def DefaultWeatherSystem.getCurrentWeather (g : String → Nat) (s : WeatherState)
    (asString : Bool) : String ⊕ Nat :=
  if asString then Sum.inl s.weathers.headI else Sum.inr (g s.weathers.headI)

/-!
Vehicle door toggle (`toggleDoor` in the vehicle helper file).
-/

/-- A vehicle, reduced to its per-door state (indices 0..5). -/
structure Vehicle where
  doorState : Fin 6 → Nat

/-- `toggleDoor(vehicle, door)`: read the door state, write 7 when it was
0 and 0 otherwise, and return `isClosed === false`. -/
def toggleDoor (vehicle : Vehicle) (door : Fin 6) : Vehicle × Bool :=
  let isClosed : Bool := vehicle.doorState door == 0
  let doorState : Nat := if isClosed == false then 0 else 7
  (⟨Function.update vehicle.doorState door doorState⟩, isClosed == false)

/-!
Concrete descriptors and host snapshots used to instantiate the theorems.
-/

/-- An `onOpen` flag set with every boolean flag present and true,
`hideOverlays` omitted, and `disableControls` set to `"all"`. -/
def ooFull : OnOpenOptions :=
  ⟨some true, some true, some true, none, some "all", some true, some true, some true⟩

/-- An `onClose` flag set with every boolean flag present and true and
`showOverlays` omitted. -/
def ocFull : OnCloseOptions :=
  ⟨some true, some true, some true, none, some true, some true, some true, some true⟩

/-- An `onOpen` flag set with every field omitted. -/
def ooNoFlags : OnOpenOptions := ⟨none, none, none, none, none, none, none, none⟩

/-- An `onClose` flag set with every field omitted. -/
def ocNoFlags : OnCloseOptions := ⟨none, none, none, none, none, none, none, none⟩

/-- A fully-populated `options` object. -/
def optsFull : PageOptions := ⟨none, some ooFull, some ocFull⟩

/-- A well-formed descriptor without a keybind. -/
def pageFull : IPage := ⟨"inventory", some optsFull, none⟩

/-- A keybind with `useSameKeyToClose` set. -/
def kbSame : PageKeybind := ⟨some true⟩

/-- The `options` object of the toggle descriptor. -/
def toggleOpts : PageOptions := ⟨none, some ooNoFlags, some ocNoFlags⟩

/-- A well-formed descriptor whose keybind sets `useSameKeyToClose`. -/
def togglePage : IPage := ⟨"ex", some toggleOpts, some kbSame⟩

/-- A malformed descriptor: `options` is absent entirely. -/
def malformedPage : IPage := ⟨"broken", none, none⟩

/-- Host snapshot with nothing open. -/
def envClear : HostState := ⟨false, false, false, false⟩

/-- Host snapshot with only the system console open. -/
def envConsole : HostState := ⟨false, true, false, false⟩

/-- Host snapshot with only this page open. -/
def envPageOpen : HostState := ⟨false, false, false, true⟩

/-- Host snapshot with the console open and this page open. -/
def consoleOpenToggleEnv : HostState := ⟨false, true, false, true⟩

/-- A concrete event sequence for the weather system: one tick with a
valid, fully-spawned player connected, then another with nobody. -/
def wActsEx : List WAction := [WAction.update [⟨true, true⟩], WAction.update []]

/-!
Helper lemmas.
-/

theorem condList_countP (c : Bool) (l : List Effect) (q : Effect → Bool) :
    (condList c l).countP q = if c then l.countP q else 0 := by
  cases c <;> simp [condList]

theorem rotateLeft_perm (l : List String) : (rotateLeft l).Perm l := by
  cases l with
  | nil => simp [rotateLeft]
  | cons x xs =>
    simp only [rotateLeft]
    exact (List.perm_append_comm : List.Perm (xs ++ [x]) ([x] ++ xs))

theorem handleWeatherUpdate_weathers (ps : List WPlayer) (s : WeatherState) :
    (handleWeatherUpdate ps s).weathers = s.weathers ∨
    (handleWeatherUpdate ps s).weathers = rotateLeft s.weathers := by
  unfold handleWeatherUpdate
  split
  · exact Or.inl rfl
  · dsimp only
    split
    · exact Or.inl rfl
    · exact Or.inr rfl

theorem handleWeatherUpdate_skip (ps : List WPlayer) (s : WeatherState)
    (h : s.enabled = false ∨ (ps.filter fun x => x.valid && x.hasFullySpawned) = []) :
    handleWeatherUpdate ps s = s := by
  unfold handleWeatherUpdate
  rcases h with h | h
  · simp [h]
  · by_cases he : s.enabled = false
    · simp [he]
    · simp [he, h]

theorem handleWeatherUpdate_rotate (ps : List WPlayer) (s : WeatherState)
    (he : s.enabled = true)
    (hps : (ps.filter fun x => x.valid && x.hasFullySpawned) ≠ []) :
    handleWeatherUpdate ps s = ⟨rotateLeft s.weathers, s.enabled⟩ := by
  unfold handleWeatherUpdate
  simp [he, Nat.le_zero, List.length_eq_zero, hps]

theorem weatherStep_perm (a : WAction) (s : WeatherState)
    (h : s.weathers.Perm weathersInit) :
    (weatherStep a s).weathers.Perm weathersInit := by
  cases a with
  | disable => exact h
  | update ps =>
    show (handleWeatherUpdate ps s).weathers.Perm weathersInit
    rcases handleWeatherUpdate_weathers ps s with h2 | h2 <;> rw [h2]
    · exact h
    · exact (rotateLeft_perm s.weathers).trans h

theorem weatherFold_perm :
    ∀ (acts : List WAction) (s : WeatherState), s.weathers.Perm weathersInit →
      ((acts.foldl (fun s a => weatherStep a s) s).weathers).Perm weathersInit := by
  intro acts
  induction acts with
  | nil => intro s h; simpa using h
  | cons a rest ih => intro s h; exact ih _ (weatherStep_perm a s h)

theorem weatherRun_perm (acts : List WAction) :
    ((weatherRun acts).weathers).Perm weathersInit :=
  weatherFold_perm acts weatherStateInit (List.Perm.refl _)

/-- C9: every run of the weather-rotation step either leaves the weathers
array unchanged (when the system is disabled or no valid, fully-spawned
player is connected) or replaces it by its left rotation by one element;
the array's length (11) and its multiset of weather keys are invariant
across all reachable states, and `getCurrentWeather` always returns the
array's current first element, as a string or its numeric form. -/
theorem weather_rotation_invariant (g : String → Nat) (acts : List WAction) :
    ((weatherRun acts).weathers).Perm weathersInit ∧
    (weatherRun acts).weathers.length = 11 ∧
    (∀ ps, (handleWeatherUpdate ps (weatherRun acts)).weathers =
        (weatherRun acts).weathers ∨
      (handleWeatherUpdate ps (weatherRun acts)).weathers =
        rotateLeft (weatherRun acts).weathers) ∧
    (∀ ps, ((weatherRun acts).enabled = false ∨
        (ps.filter fun x => x.valid && x.hasFullySpawned) = []) →
      handleWeatherUpdate ps (weatherRun acts) = weatherRun acts) ∧
    (∀ ps, (weatherRun acts).enabled = true →
      (ps.filter fun x => x.valid && x.hasFullySpawned) ≠ [] →
      (handleWeatherUpdate ps (weatherRun acts)).weathers =
        rotateLeft (weatherRun acts).weathers) ∧
    DefaultWeatherSystem.getCurrentWeather g (weatherRun acts) true =
      Sum.inl ((weatherRun acts).weathers.headI) ∧
    DefaultWeatherSystem.getCurrentWeather g (weatherRun acts) false =
      Sum.inr (g ((weatherRun acts).weathers.headI)) := by
  refine ⟨weatherRun_perm acts, ?_, ?_, ?_, ?_, rfl, rfl⟩
  · exact (weatherRun_perm acts).length_eq.trans rfl
  · exact fun ps => handleWeatherUpdate_weathers ps (weatherRun acts)
  · exact fun ps h => handleWeatherUpdate_skip ps (weatherRun acts) h
  · intro ps he hps
    rw [handleWeatherUpdate_rotate ps (weatherRun acts) he hps]

/-- C9 witness: the invariants evaluated after a concrete event sequence,
with a tick whose player filter is empty leaving the state unchanged. -/
theorem weather_rotation_invariant_witness :
    ((weatherRun wActsEx).weathers).Perm weathersInit ∧
    (weatherRun wActsEx).weathers.length = 11 ∧
    handleWeatherUpdate [] (weatherRun wActsEx) = weatherRun wActsEx := by
  have h := weather_rotation_invariant (fun _ => 0) wActsEx
  exact ⟨h.1, h.2.1, h.2.2.2.1 [] (Or.inr rfl)⟩

/-- C10: `toggleDoor` sets the door's state to 7 (open) when it was 0
(closed) and to 0 otherwise, and returns true exactly when the door was
open before the call — equivalently, exactly when the door is closed after
the call — the negation of the door's new open state. -/
theorem toggleDoor_state_and_return (v : Vehicle) (d : Fin 6) :
    (toggleDoor v d).1.doorState d = (if v.doorState d = 0 then 7 else 0) ∧
    (toggleDoor v d).2 = decide (v.doorState d ≠ 0) ∧
    (toggleDoor v d).2 = decide ((toggleDoor v d).1.doorState d = 0) ∧
    (toggleDoor v d).2 = !(decide ((toggleDoor v d).1.doorState d = 7)) := by
  by_cases h : v.doorState d = 0 <;>
    simp [toggleDoor, Function.update_same, h]

/-- C1: every successful `close(isManuallyTriggered)` call invokes the
descriptor's `onClose` callback exactly once, as the final step, on every
code path — manual or automatic — regardless of which `onClose` option
flags are set. -/
theorem close_invokes_onClose_once (p : IPage) (b : Bool) (opts : PageOptions)
    (oc : OnCloseOptions) (tr : List Effect)
    (h1 : p.options = some opts) (h2 : opts.onClose = some oc)
    (h3 : Page.close p b = Except.ok tr) :
    tr.countP Effect.isOnCloseCallback = 1 ∧
    tr.getLast? = some Effect.onCloseCallback := by
  simp only [Page.close, h1, h2] at h3
  obtain rfl : closeEffects p.name oc b = tr := by
    simpa using h3
  constructor
  · simp [closeEffects, List.countP_append, condList_countP,
      Effect.isOnCloseCallback]
  · exact List.getLast?_concat _

/-- C1 witness: a concrete manual close on a fully-flagged descriptor. -/
theorem close_invokes_onClose_once_witness :
    (closeEffects pageFull.name ocFull true).countP Effect.isOnCloseCallback = 1 ∧
    (closeEffects pageFull.name ocFull true).getLast? =
      some Effect.onCloseCallback :=
  close_invokes_onClose_once pageFull true optsFull ocFull
    (closeEffects pageFull.name ocFull true) rfl rfl rfl

/-- C2 counterexample: with `useSameKeyToClose` set, the surface reported
open, and the host console open, `open()` does return `false` but issues
side-effect calls (the toggle redirect runs `close(true)` before the
console check), refuting "zero side-effect calls" as universally stated. -/
theorem open_blocking_zero_effects_cex :
    consoleOpenToggleEnv.isConsoleOpen = true ∧
    Page.open togglePage consoleOpenToggleEnv =
      Except.ok (false, [Effect.webviewClose ["ex"] true, Effect.onCloseCallback]) ∧
    ([Effect.webviewClose ["ex"] true, Effect.onCloseCallback] : List Effect) ≠ [] :=
  ⟨rfl, rfl, by simp⟩

/-- C2 (amended): when the `useSameKeyToClose` toggle redirect does not
fire, any of the three blocking checks (another menu open, console open,
pause menu open) makes `open()` return `false` with zero side-effect
calls, signalled by the boolean return rather than an exception. -/
theorem open_blocking_checks_abort (p : IPage) (env : HostState)
    (ht : (useSameKeyToClose p && env.isPageOpen) = false)
    (hb : env.isAnyMenuOpen = true ∨ env.isConsoleOpen = true ∨
      env.isMenuOpen = true) :
    Page.open p env = Except.ok (false, []) := by
  rcases hb with h | h | h <;> simp [Page.open, ht, h]

/-- C2 witness: a keybind-free descriptor with the console open. -/
theorem open_blocking_checks_abort_witness :
    Page.open pageFull envConsole = Except.ok (false, []) :=
  open_blocking_checks_abort pageFull envConsole rfl (Or.inr (Or.inl rfl))

/-- C3: when no precondition aborts, the side effects of `open()` fire in
the spec's fixed order — focus, HUD-overlay hide, cursor, control-disable
dispatch (`"all"` disables all input, `"camera"` disables only camera
movement, any other value is a no-op), pause-menu disable, radar/HUD hide,
250ms blur fade-in, menu-open flag — each gated on its own `onOpen` flag,
then the display call is issued with the computed `hideOverlays` flag (its
auto-close handler being the bound `close`), and `open()` returns true. -/
theorem open_effect_sequence (p : IPage) (env : HostState) (opts : PageOptions)
    (oo : OnOpenOptions) (h1 : p.options = some opts) (h2 : opts.onOpen = some oo)
    (ht : (useSameKeyToClose p && env.isPageOpen) = false)
    (ha : env.isAnyMenuOpen = false) (hc : env.isConsoleOpen = false)
    (hm : env.isMenuOpen = false) :
    Page.open p env = Except.ok (true,
      (condList (optB oo.focus) [Effect.webviewFocus] ++
       condList (optB oo.hideHud) [Effect.webviewShowOverlays false none] ++
       condList (optB oo.showCursor) [Effect.webviewShowCursor true] ++
       (match oo.disableControls with
        | some s =>
          if s = "all" then [Effect.toggleGameControls false]
          else if s = "camera" then [Effect.gameplayCameraDisable]
          else []
        | none => []) ++
       condList (optB oo.disablePauseMenu) [Effect.pauseMenuDisable] ++
       condList (optB oo.hideHud) [Effect.displayRadar false, Effect.displayHud false] ++
       condList (optB oo.blurBackground) [Effect.screenblurFadeIn 250] ++
       condList (optB oo.setIsMenuOpenToTrue) [Effect.setIsMenuOpen true]) ++
      [Effect.webviewOpen [p.name]
        (if oo.hideOverlays = some false then false else true)]) := by
  simp [Page.open, ht, ha, hc, hm, h1, h2, openEffects, hideOverlaysOf]

/-- C3 witness: the concrete trace of opening the fully-flagged
descriptor on a clear host snapshot. -/
theorem open_effect_sequence_witness :
    Page.open pageFull envClear = Except.ok (true,
      (condList (optB ooFull.focus) [Effect.webviewFocus] ++
       condList (optB ooFull.hideHud) [Effect.webviewShowOverlays false none] ++
       condList (optB ooFull.showCursor) [Effect.webviewShowCursor true] ++
       (match ooFull.disableControls with
        | some s =>
          if s = "all" then [Effect.toggleGameControls false]
          else if s = "camera" then [Effect.gameplayCameraDisable]
          else []
        | none => []) ++
       condList (optB ooFull.disablePauseMenu) [Effect.pauseMenuDisable] ++
       condList (optB ooFull.hideHud)
         [Effect.displayRadar false, Effect.displayHud false] ++
       condList (optB ooFull.blurBackground) [Effect.screenblurFadeIn 250] ++
       condList (optB ooFull.setIsMenuOpenToTrue) [Effect.setIsMenuOpen true]) ++
      [Effect.webviewOpen [pageFull.name]
        (if ooFull.hideOverlays = some false then false else true)]) :=
  open_effect_sequence pageFull envClear optsFull ooFull rfl rfl rfl rfl rfl rfl

/-- C4: `open()` computes `hideOverlays = true` whenever
`onOpen.hideOverlays` is omitted or true and `false` only when it is
explicitly false, as witnessed by the flag carried by the display call;
symmetrically, `close()` computes `showOverlays` from
`onClose.showOverlays`, as witnessed by the hide-surface call. -/
theorem overlay_flag_defaults (p : IPage) (opts : PageOptions)
    (oo : OnOpenOptions) (oc : OnCloseOptions) (env : HostState)
    (tr1 tr2 : List Effect)
    (h1 : p.options = some opts) (h2 : opts.onOpen = some oo)
    (h3 : opts.onClose = some oc)
    (ho : Page.open p env = Except.ok (true, tr1))
    (hc : Page.close p true = Except.ok tr2) :
    ((oo.hideOverlays = none ∨ oo.hideOverlays = some true) →
      tr1.getLast? = some (Effect.webviewOpen [p.name] true)) ∧
    (oo.hideOverlays = some false →
      tr1.getLast? = some (Effect.webviewOpen [p.name] false)) ∧
    ((oc.showOverlays = none ∨ oc.showOverlays = some true) →
      Effect.webviewClose [p.name] true ∈ tr2) ∧
    (oc.showOverlays = some false →
      Effect.webviewClose [p.name] false ∈ tr2) := by
  have htr1 : tr1 = openEffects p.name oo := by
    by_cases htog : (useSameKeyToClose p && env.isPageOpen) = true
    · rw [Page.open] at ho
      rw [if_pos htog] at ho
      rcases hcl : Page.close p true with e | l <;> simp [hcl, Except.map] at ho
    · rw [Bool.not_eq_true] at htog
      by_cases hA : env.isAnyMenuOpen = true
      · simp [Page.open, htog, hA] at ho
      · by_cases hC : env.isConsoleOpen = true
        · simp [Page.open, htog, hC] at ho
        · by_cases hM : env.isMenuOpen = true
          · simp [Page.open, htog, hM] at ho
          · rw [Bool.not_eq_true] at hA hC hM
            simp [Page.open, htog, hA, hC, hM, h1, h2] at ho
            exact ho.symm
  have htr2 : tr2 = closeEffects p.name oc true := by
    simp only [Page.close, h1, h3] at hc
    simpa using hc.symm
  subst htr1
  subst htr2
  refine ⟨?_, ?_, ?_, ?_⟩
  · intro h
    have : hideOverlaysOf oo = true := by
      rcases h with h | h <;> simp [hideOverlaysOf, h]
    rw [openEffects, this]
    exact List.getLast?_concat _
  · intro h
    have : hideOverlaysOf oo = false := by simp [hideOverlaysOf, h]
    rw [openEffects, this]
    exact List.getLast?_concat _
  · intro h
    have : showOverlaysOf oc = true := by
      rcases h with h | h <;> simp [showOverlaysOf, h]
    simp [closeEffects, this, condList]
  · intro h
    have : showOverlaysOf oc = false := by simp [showOverlaysOf, h]
    simp [closeEffects, this, condList]

/-- C4 witness: both overlay flags default to true when the fields are
omitted, observed on the fully-flagged descriptor. -/
theorem overlay_flag_defaults_witness :
    (openEffects pageFull.name ooFull).getLast? =
      some (Effect.webviewOpen [pageFull.name] true) ∧
    Effect.webviewClose [pageFull.name] true ∈
      closeEffects pageFull.name ocFull true := by
  have h := overlay_flag_defaults pageFull optsFull ooFull ocFull envClear
    (openEffects pageFull.name ooFull) (closeEffects pageFull.name ocFull true)
    rfl rfl rfl rfl rfl
  exact ⟨h.1 (Or.inl rfl), h.2.2.1 (Or.inl rfl)⟩

/-- C5: with `keybind.useSameKeyToClose` set and the surface reported
open, `open()` behaves exactly as `close(true)` — same effects, same
fault, if any — and returns `false` (a toggle). -/
theorem open_same_key_toggle (p : IPage) (k : PageKeybind) (env : HostState)
    (hk : p.keybind = some k) (hu : k.useSameKeyToClose = some true)
    (ho : env.isPageOpen = true) :
    Page.open p env = Except.map (fun tr => (false, tr)) (Page.close p true) ∧
    ∀ tr, Page.close p true = Except.ok tr →
      Page.open p env = Except.ok (false, tr) := by
  have hcond : (useSameKeyToClose p && env.isPageOpen) = true := by
    simp [useSameKeyToClose, hk, hu, optB, ho]
  constructor
  · rw [Page.open, if_pos hcond]
  · intro tr htr
    rw [Page.open, if_pos hcond, htr]
    rfl

/-- C5 witness: the toggle descriptor with its surface reported open. -/
theorem open_same_key_toggle_witness :
    Page.open togglePage envPageOpen =
      Except.ok (false, closeEffects togglePage.name ocNoFlags true) :=
  (open_same_key_toggle togglePage kbSame envPageOpen rfl rfl rfl).2
    (closeEffects togglePage.name ocNoFlags true) rfl

/-- C6: on a successful `close(isManuallyTriggered)`: when manual, the
trace has exactly one hide-surface call — carrying the computed
`showOverlays` — and no direct show-overlays call; when automatic with
`showOverlays` true, exactly one direct show-overlays call and no
hide-surface call; when automatic with `showOverlays` false, neither. -/
theorem close_hide_vs_show_overlays (p : IPage) (b : Bool) (opts : PageOptions)
    (oc : OnCloseOptions) (tr : List Effect)
    (h1 : p.options = some opts) (h2 : opts.onClose = some oc)
    (h3 : Page.close p b = Except.ok tr) :
    (b = true →
      tr.countP Effect.isWebviewClose = 1 ∧
      Effect.webviewClose [p.name] (showOverlaysOf oc) ∈ tr ∧
      tr.countP Effect.isShowOverlaysCall = 0) ∧
    (b = false → showOverlaysOf oc = true →
      tr.countP Effect.isShowOverlaysCall = 1 ∧
      Effect.webviewShowOverlays true (some false) ∈ tr ∧
      tr.countP Effect.isWebviewClose = 0) ∧
    (b = false → showOverlaysOf oc = false →
      tr.countP Effect.isShowOverlaysCall = 0 ∧
      tr.countP Effect.isWebviewClose = 0) := by
  simp only [Page.close, h1, h2] at h3
  obtain rfl : closeEffects p.name oc b = tr := by simpa using h3
  refine ⟨?_, ?_, ?_⟩
  · rintro rfl
    refine ⟨?_, ?_, ?_⟩
    · simp [closeEffects, List.countP_append, condList_countP,
        Effect.isWebviewClose]
    · simp [closeEffects, condList]
    · simp [closeEffects, List.countP_append, condList_countP,
        Effect.isShowOverlaysCall]
  · rintro rfl hso
    refine ⟨?_, ?_, ?_⟩
    · simp [closeEffects, List.countP_append, condList_countP, hso,
        Effect.isShowOverlaysCall]
    · simp [closeEffects, condList, hso]
    · simp [closeEffects, List.countP_append, condList_countP,
        Effect.isWebviewClose]
  · rintro rfl hso
    constructor
    · simp [closeEffects, List.countP_append, condList_countP, hso,
        Effect.isShowOverlaysCall]
    · simp [closeEffects, List.countP_append, condList_countP,
        Effect.isWebviewClose]

/-- C6 witness: a concrete manual close issues the hide-surface call once
and never the direct show-overlays call. -/
theorem close_hide_vs_show_overlays_witness :
    (closeEffects pageFull.name ocFull true).countP Effect.isWebviewClose = 1 ∧
    Effect.webviewClose [pageFull.name] (showOverlaysOf ocFull) ∈
      closeEffects pageFull.name ocFull true ∧
    (closeEffects pageFull.name ocFull true).countP
      Effect.isShowOverlaysCall = 0 :=
  (close_hide_vs_show_overlays pageFull true optsFull ocFull
    (closeEffects pageFull.name ocFull true) rfl rfl rfl).1 rfl

/-- C7: without `useSameKeyToClose`, `open()` performs no already-open
check: with the surface already open and no blocking menu, console, or
pause menu, it re-applies all open side effects, re-issues the display
call, and returns true — its result does not depend on the already-open
bit at all. -/
theorem open_reapplies_when_already_open (p : IPage) (env : HostState)
    (opts : PageOptions) (oo : OnOpenOptions)
    (h1 : p.options = some opts) (h2 : opts.onOpen = some oo)
    (hk : useSameKeyToClose p = false)
    (ha : env.isAnyMenuOpen = false) (hc : env.isConsoleOpen = false)
    (hm : env.isMenuOpen = false) (_ho : env.isPageOpen = true) :
    Page.open p env = Except.ok (true, openEffects p.name oo) ∧
    (openEffects p.name oo).getLast? =
      some (Effect.webviewOpen [p.name] (hideOverlaysOf oo)) ∧
    Page.open p env =
      Page.open p ⟨env.isAnyMenuOpen, env.isConsoleOpen, env.isMenuOpen, false⟩ := by
    refine ⟨?_, List.getLast?_concat _, ?_⟩
    · simp [Page.open, hk, ha, hc, hm, h1, h2]
    · simp [Page.open, hk, ha, hc, hm, h1, h2]

/-- C7 witness: the fully-flagged descriptor opened while its surface is
already reported open. -/
theorem open_reapplies_when_already_open_witness :
    Page.open pageFull envPageOpen =
      Except.ok (true, openEffects pageFull.name ooFull) ∧
    (openEffects pageFull.name ooFull).getLast? =
      some (Effect.webviewOpen [pageFull.name] (hideOverlaysOf ooFull)) ∧
    Page.open pageFull envPageOpen =
      Page.open pageFull ⟨envPageOpen.isAnyMenuOpen, envPageOpen.isConsoleOpen,
        envPageOpen.isMenuOpen, false⟩ :=
  open_reapplies_when_already_open pageFull envPageOpen optsFull ooFull
    rfl rfl rfl rfl rfl rfl rfl

/-- C8: on the non-aborting path, a descriptor lacking `options` or
`options.onOpen` makes `open()` fail fast with a null/undefined-access
fault rather than return false, while a descriptor carrying both opens
normally — the fault branch is unreachable for well-formed descriptors. -/
theorem open_fail_fast_malformed (p : IPage) (env : HostState)
    (ht : (useSameKeyToClose p && env.isPageOpen) = false)
    (ha : env.isAnyMenuOpen = false) (hc : env.isConsoleOpen = false)
    (hm : env.isMenuOpen = false) :
    (onOpenOf p = none → Page.open p env = Except.error Fault.nullAccess) ∧
    (∀ oo, onOpenOf p = some oo →
      Page.open p env = Except.ok (true, openEffects p.name oo)) := by
  constructor
  · intro h
    rcases hop : p.options with _ | opts
    · simp [Page.open, ht, ha, hc, hm, hop]
    · simp only [onOpenOf, hop] at h
      simp [Page.open, ht, ha, hc, hm, hop, h]
  · intro oo h
    rcases hop : p.options with _ | opts
    · simp only [onOpenOf, hop] at h
      exact absurd h (by simp)
    · simp only [onOpenOf, hop] at h
      simp [Page.open, ht, ha, hc, hm, hop, h]

/-- C8 witness: a descriptor with no `options` object faults on open. -/
theorem open_fail_fast_malformed_witness :
    Page.open malformedPage envClear = Except.error Fault.nullAccess :=
  (open_fail_fast_malformed malformedPage envClear rfl rfl rfl rfl).1 rfl
